import Mathlib

/- Verification development for the GEDI L2B monthly rasterization pipeline
   (datasets/gedi_rasterize_l2b.py).  The pipeline parses acquisition dates
   out of table asset ids, validates them against a requested calendar month,
   resolves the raster band schema, filters and orders shot records, and
   assembles an export job description. -/

/-- A calendar datetime, understood as UTC (the pipeline localizes every
parsed timestamp to UTC and compares datetimes of the same zone, which in
Python is field-lexicographic comparison). -/
structure Dt where
  year : Nat
  month : Nat
  day : Nat
  hour : Nat
  minute : Nat
  second : Nat
deriving DecidableEq

/-- Python comparison of two same-timezone datetimes: lexicographic on
(year, month, day, hour, minute, second). -/
def dtLt (a b : Dt) : Bool :=
  if a.year < b.year then true
  else if b.year < a.year then false
  else if a.month < b.month then true
  else if b.month < a.month then false
  else if a.day < b.day then true
  else if b.day < a.day then false
  else if a.hour < b.hour then true
  else if b.hour < a.hour then false
  else if a.minute < b.minute then true
  else if b.minute < a.minute then false
  else decide (a.second < b.second)

/-- Proleptic Gregorian leap-year rule, as used by Python's datetime. -/
def isLeap (y : Nat) : Bool :=
  (y % 4 == 0 && y % 100 != 0) || y % 400 == 0

/-- Length of a calendar month in the proleptic Gregorian calendar. -/
def daysInMonth (y m : Nat) : Nat :=
  if m = 2 then (if isLeap y then 29 else 28)
  else if m = 4 ∨ m = 6 ∨ m = 9 ∨ m = 11 then 30
  else 31

/-- Days in year `y` strictly before the first day of month `m`. -/
def daysBeforeMonth (y m : Nat) : Nat :=
  ((List.range (m - 1)).map (fun i => daysInMonth y (i + 1))).sum

/-- Python `date.toordinal`: day number of `y-m-d` counting 0001-01-01 as 1. -/
def toOrdinal (y m d : Nat) : Nat :=
  365 * (y - 1) + (y - 1) / 4 - (y - 1) / 100 + (y - 1) / 400
    + daysBeforeMonth y m + d

/-- Python `dt.timestamp()` for a UTC-aware datetime: seconds since the Unix
epoch 1970-01-01T00:00:00 UTC. -/
def unixSeconds (dt : Dt) : Int :=
  ((toOrdinal dt.year dt.month dt.day : Int) - (toOrdinal 1970 1 1 : Int)) * 86400
    + dt.hour * 3600 + dt.minute * 60 + dt.second

/-- Embedding of `gedi_deltatime_epoch`: `dt.timestamp()` minus the naive
datetime subtraction `datetime(2018,1,1) - datetime(1970,1,1)` expressed in
seconds (a whole number of days times 86400). -/
def gedi_deltatime_epoch (dt : Dt) : Int :=
  unixSeconds dt - ((toOrdinal 2018 1 1 : Int) - (toOrdinal 1970 1 1 : Int)) * 86400

/-- Embedding of `timestamp_ms_for_datetime`: `time.mktime(dt.timetuple()) * 1000`.
`mktime` interprets the tuple in the process's local timezone; the model takes
the local timezone to be UTC. -/
def timestamp_ms_for_datetime (dt : Dt) : Int :=
  unixSeconds dt * 1000

/-- Embedding of `grill_month.replace(day=1)`: only the day field changes. -/
def monthStart (g : Dt) : Dt :=
  { g with day := 1 }

/-- Embedding of `relativedelta.relativedelta(months=1)` addition: advance the
month (rolling the year past December) and clamp the day to the target month's
length. -/
def addOneMonth (d : Dt) : Dt :=
  if d.month = 12 then
    { d with year := d.year + 1, month := 1, day := min d.day (daysInMonth (d.year + 1) 1) }
  else
    { d with month := d.month + 1, day := min d.day (daysInMonth d.year (d.month + 1)) }

/-- The end of the requested month window: `month_start + relativedelta(months=1)`. -/
def monthEnd (g : Dt) : Dt :=
  addOneMonth (monthStart g)

/-- Errors raised by the pipeline (each `raise ValueError` site, plus the
parse failure mode of `strptime`). -/
inductive ExportError where
  | invalidArgument
  | formatError
  | allOutsideMonth
  | insufficientCoverage
deriving DecidableEq

/-- Numeric value of a list of decimal digit characters. -/
def natOfDigits (cs : List Char) : Nat :=
  cs.foldl (fun a c => a * 10 + (c.toNat - 48)) 0

/-- Convert a day-of-year into (month, day), walking months with bounded fuel. -/
def doyWalk (y : Nat) : Nat → Nat → Nat → Option (Nat × Nat)
  | 0, _, _ => none
  | fuel + 1, m, rem =>
    if rem ≤ daysInMonth y m then some (m, rem)
    else doyWalk y fuel (m + 1) (rem - daysInMonth y m)

/-- Python `str.split(sep)` on character lists, keeping empty segments. -/
def splitOnChar (sep : Char) (cs : List Char) : List (List Char) :=
  cs.foldr
    (fun c acc =>
      match acc with
      | [] => [[c]]
      | cur :: rest => if c = sep then [] :: cur :: rest else (c :: cur) :: rest)
    [[]]

/-- Embedding of `datetime.strptime(tok, '%Y%j%H%M%S')` on the canonical
13-digit token: 4-digit year, 3-digit day-of-year, 2-digit hour, minute and
second, with range validation. -/
def parseToken (cs : List Char) : Except ExportError Dt :=
  if cs.length = 13 ∧ cs.all Char.isDigit then
    let y := natOfDigits (cs.take 4)
    let doy := natOfDigits ((cs.drop 4).take 3)
    let hh := natOfDigits ((cs.drop 7).take 2)
    let mi := natOfDigits ((cs.drop 9).take 2)
    let ss := natOfDigits ((cs.drop 11).take 2)
    if 1 ≤ y ∧ 1 ≤ doy ∧ hh ≤ 23 ∧ mi ≤ 59 ∧ ss ≤ 59 then
      match doyWalk y 12 1 doy with
      | some (m, d) => .ok ⟨y, m, d, hh, mi, ss⟩
      | none => .error .formatError
    else .error .formatError
  else .error .formatError

/-- Embedding of `parse_date_from_gedi_filename`: take the basename of the
asset id, split on underscores, parse the third segment as a UTC timestamp. -/
def parse_date_from_gedi_filename (table_asset_id : String) : Except ExportError Dt :=
  let base := (splitOnChar '/' table_asset_id.data).getLastD []
  match (splitOnChar '_' base)[2]? with
  | none => .error .formatError
  | some tok => parseToken tok

/-- The parse loop of `create_export` (lines 138-141): parse each asset id in
order, failing on the first malformed one. -/
def parseAll : List String → Except ExportError (List Dt)
  | [] => .ok []
  | id :: rest =>
    match parse_date_from_gedi_filename id with
    | .error e => .error e
    | .ok d =>
      match parseAll rest with
      | .error e => .error e
      | .ok ds => .ok (d :: ds)

/-- An axis-aligned bounding box in the tile's planar coordinates.  The
pipeline reduces the buffered tile geometry to its bounding box
(`.buffer(2500, 25).bounds()`), so a box is the geometry the filter sees. -/
structure Box where
  xmin : ℚ
  ymin : ℚ
  xmax : ℚ
  ymax : ℚ
deriving DecidableEq

/-- A GEDI shot record: a located observation carrying a mission delta-time,
a sensitivity quality score and named band values. -/
structure Record where
  x : ℚ
  y : ℚ
  delta_time : ℚ
  sensitivity : ℚ
  bands : List (String × ℚ)
deriving DecidableEq

/-- Modelled from the spec: membership of a record in the buffered bounding
box (the engine's `filterBounds` against a rectangle). -/
def inBox (r : Record) (b : Box) : Bool :=
  decide (b.xmin ≤ r.x) && decide (r.x ≤ b.xmax) &&
    decide (b.ymin ≤ r.y) && decide (r.y ≤ b.ymax)

/-- Modelled from the spec: `grid_cell_feature.geometry().buffer(2500, 25).bounds()`
for a rectangular tile geometry — buffering outward by 2500 ground units and
taking the bounding box expands each side by exactly 2500 (the rounded corners
stay inside the expanded rectangle for any segment count). -/
def bufferBounds (g : Box) : Box :=
  ⟨g.xmin - 2500, g.ymin - 2500, g.xmax + 2500, g.ymax + 2500⟩

/-- Modelled from the spec: the output pixel a record resolves to on the fixed
25-ground-unit grid. -/
def pixelOf (r : Record) : Int × Int :=
  (⌊r.x / 25⌋, ⌊r.y / 25⌋)

/-- Embedding of lines 185-190: keep records inside the buffered bounding box
whose `delta_time` lies in the half-open window `[e1, e2)`.  The range filter
on `delta_time` is modelled from the spec's contract for the engine
(`ee.Filter.rangeContains` applied to `[epoch(month_start), epoch(month_end))`). -/
def filterShots (box : Box) (e1 e2 : Int) (l : List Record) : List Record :=
  (l.filter (fun r => inBox r box)).filter
    (fun r => decide ((e1 : ℚ) ≤ r.delta_time) && decide (r.delta_time < (e2 : ℚ)))

/-- The descending-sensitivity ordering used by `shots.sort('sensitivity', False)`:
`a` precedes `b` when `b`'s sensitivity is at most `a`'s. -/
def sensGE (a b : Record) : Prop :=
  b.sensitivity ≤ a.sensitivity

instance : DecidableRel sensGE :=
  fun a b => inferInstanceAs (Decidable (b.sensitivity ≤ a.sensitivity))

instance : IsTotal Record sensGE :=
  ⟨fun a b => le_total b.sensitivity a.sensitivity⟩

instance : IsTrans Record sensGE :=
  ⟨fun _ _ _ h1 h2 => le_trans h2 h1⟩

/-- Modelled from the spec: the engine's stable sort by strictly descending
sensitivity (`shots.sort('sensitivity', False)`). -/
def sortDesc (l : List Record) : List Record :=
  l.insertionSort sensGE

/-- Modelled from the spec: the `ee.Reducer.first()` reduction — the value of
an output pixel is the first record of the ordered stream resolving to it. -/
def assembleAt (l : List Record) (p : Int × Int) : Option Record :=
  (sortDesc l).find? (fun r => decide (pixelOf r = p))

/-- Embedding of `INTEGER_PROPS` (lines 51-82), in source order. -/
def INTEGER_PROPS : List String :=
  ["algorithmrun_flag",
   "algorithmrun_flag_aN",
   "channel",
   "degrade_flag",
   "l2a_quality_flag",
   "l2b_quality_flag",
   "landsat_water_persistencoe",
   "leaf_off_flag",
   "leaf_on_cycle",
   "master_int",
   "num_detectedmodes",
   "pft_class",
   "region_class",
   "rg_eg_constraint_center_buffer",
   "rg_eg_flag_aN",
   "rg_eg_niter_aN",
   "selected_l2a_algorithm",
   "selected_mode",
   "selected_mode_flag",
   "selected_rg_algorithm",
   "stale_return_flag",
   "surface_flag",
   "urban_focal_window_size",
   "urban_proportion",
   "minor_frame_number",
   "orbit_number",
   "shot_number_within_beam"]

/-- The classifier `p in INTEGER_PROPS`. -/
def isIntegerProp (b : String) : Bool :=
  decide (b ∈ INTEGER_PROPS)

/-- Embedding of `get_raster_bands` (lines 161-163): the 30 per-level band
names `band ++ "0" .. band ++ "29"`. -/
def get_raster_bands (band : String) : List String :=
  (List.range 30).map (fun count => band ++ toString count)

/-- The memoization wrapper around `get_raster_bands`, made explicit: a cache
threaded through calls, consulted before computing. -/
def get_raster_bands_cached (cache : List (String × List String)) (band : String) :
    List String × List (String × List String) :=
  match cache.lookup band with
  | some v => (v, cache)
  | none => (get_raster_bands band, (band, get_raster_bands band) :: cache)

/-- Embedding of `raster_bands` (lines 166-175). -/
def raster_bands : List String :=
  ["algorithmrun_flag", "beam", "cover"] ++ get_raster_bands "cover_z" ++
    ["degrade_flag", "delta_time", "fhd_normal", "l2b_quality_flag",
     "local_beam_azimuth", "local_beam_elevation", "pai"] ++
    get_raster_bands "pai_z" ++ get_raster_bands "pavd_z" ++
    ["pgap_theta", "selected_l2a_algorithm", "selected_rg_algorithm",
     "sensitivity", "solar_azimuth", "solar_elevation",
     "minor_frame_number", "orbit_number", "shot_number_within_beam"]

/-- The numeric kind of an image band after type casting. -/
inductive BandKind where
  | double
  | int
deriving DecidableEq

instance : BEq BandKind := ⟨fun a b => decide (a = b)⟩

/-- Embedding of `int_bands` (line 213): the raster bands that are in
`INTEGER_PROPS`, in raster-band order. -/
def int_bands : List String :=
  raster_bands.filter (fun p => isIntegerProp p)

/-- `image.toDouble()`: every band of the image cast to the continuous kind. -/
def toDoubleBands (names : List String) : List (String × BandKind) :=
  names.map (fun n => (n, BandKind.double))

/-- Modelled from the spec: `addBands(..., overwrite=True)` replaces, in place
by name, each base band that also occurs in the added list, keeping the base
order and count ("overwrite-by-name, not append"). -/
def addBandsOverwrite (base extra : List (String × BandKind)) : List (String × BandKind) :=
  base.map (fun b =>
    match extra.find? (fun e => e.1 == b.1) with
    | some e => e
    | none => b)

/-- Embedding of lines 213-216: cast all bands to double, then overwrite the
integer-classified ones with integer-typed versions. -/
def image_with_types_bands : List (String × BandKind) :=
  addBandsOverwrite (toDoubleBands raster_bands)
    (int_bands.map (fun n => (n, BandKind.int)))

/-- Provenance metadata attached to the raster image (lines 198-205). -/
structure ImageProps where
  month : Nat
  year : Nat
  version : Nat
  time_start : Int
  time_end : Int
  table_asset_ids : List String
deriving DecidableEq

/-- The relevant view of `grid_cell_feature`: its geometry (as a bounding
rectangle) and its `crs` property. -/
structure Feature where
  geometry : Box
  crs : String

/-- Embedding of the `ExportParameters` value object (lines 38-46), with the
image broken out into its band schema, its ordered contributing record stream
and its properties. -/
structure ExportParameters where
  asset_id : String
  bands : List (String × BandKind)
  records : List Record
  props : ImageProps
  pyramiding_policy : List (String × String)
  crs : String
  region : Box
  overwrite : Bool

/-- Embedding of `create_export` (lines 122-224).  `recordsOf` stands for the
external table store (`ee.FeatureCollection` applied to one asset id). -/
def create_export (table_asset_ids : List String) (raster_asset_id : String)
    (grid_cell_feature : Feature) (grill_month : Dt)
    (recordsOf : String → List Record) (overwrite : Bool) :
    Except ExportError ExportParameters :=
  if table_asset_ids.isEmpty then .error .invalidArgument
  else
    match parseAll table_asset_ids with
    | .error e => .error e
    | .ok table_asset_dts =>
      let month_start := monthStart grill_month
      let month_end := monthEnd grill_month
      if table_asset_dts.all
          (fun date => dtLt date month_start || !dtLt date month_end) then
        .error .allOutsideMonth
      else
        let right_month_dts := table_asset_dts.filter
          (fun dates => !dtLt dates month_start && dtLt dates month_end)
        if right_month_dts.length * 20 < table_asset_dts.length * 19 then
          .error .insufficientCoverage
        else
          let box := bufferBounds grid_cell_feature.geometry
          let shots := filterShots box (gedi_deltatime_epoch month_start)
            (gedi_deltatime_epoch month_end)
            ((table_asset_ids.map recordsOf).flatten)
          .ok { asset_id := raster_asset_id,
                bands := image_with_types_bands,
                records := sortDesc (sortDesc shots),
                props := { month := grill_month.month,
                           year := grill_month.year,
                           version := 1,
                           time_start := timestamp_ms_for_datetime month_start,
                           time_end := timestamp_ms_for_datetime month_end,
                           table_asset_ids := table_asset_ids },
                pyramiding_policy := [(".default", "sample")],
                crs := grid_cell_feature.crs,
                region := box,
                overwrite := overwrite }

/-- C9: an empty table asset id list makes `create_export` fail with the
invalid-argument error for every choice of the remaining inputs, before any
parsing, geometry or time-window computation, and no export parameters are
produced. -/
theorem create_export_empty_invalid (aid : String) (f : Feature) (g : Dt)
    (rec : String → List Record) (ow : Bool) :
    create_export [] aid f g rec ow = .error .invalidArgument := rfl

/-- C8: `gedi_deltatime_epoch` equals the Unix timestamp minus 1514764800
seconds (the naive difference between 2018-01-01 and 1970-01-01), and it is 0
at the mission epoch 2018-01-01T00:00:00 UTC. -/
theorem gedi_deltatime_epoch_spec (dt : Dt) :
    gedi_deltatime_epoch dt = unixSeconds dt - 1514764800 ∧
    gedi_deltatime_epoch ⟨2018, 1, 1, 0, 0, 0⟩ = 0 := by
  constructor
  · have h : ((toOrdinal 2018 1 1 : Int) - (toOrdinal 1970 1 1 : Int)) * 86400 =
        1514764800 := by decide
    simp only [gedi_deltatime_epoch, h]
  · decide

/-- C6: band-kind classification is total and exclusive — a name is
integer-kind exactly when it is in `INTEGER_PROPS`; `algorithmrun_flag`
classifies as integer, `pai` as continuous, and `shot_number` never occurs in
the resolved band list. -/
theorem integer_props_classification :
    (∀ b : String, isIntegerProp b = true ↔ b ∈ INTEGER_PROPS) ∧
    isIntegerProp "algorithmrun_flag" = true ∧
    isIntegerProp "pai" = false ∧
    "shot_number" ∉ raster_bands := by
  refine ⟨fun b => ?_, by decide, by decide, by decide⟩
  simp [isIntegerProp]

/-- C7: the type-cast step (cast everything to double, then overwrite the
integer-classified bands in place) keeps the band names, order and count of
the original band list, and gives a band the integer kind exactly when its
name classifies as integer. -/
theorem image_with_types_spec :
    image_with_types_bands.map Prod.fst = raster_bands ∧
    image_with_types_bands.length = raster_bands.length ∧
    image_with_types_bands.all
      (fun b => b.2 == (if isIntegerProp b.1 then BandKind.int else BandKind.double)) =
      true :=
  ⟨by rfl, by rfl, by rfl⟩

/-- C5: band-family expansion yields exactly the 30 names `prefix ++ "0"` to
`prefix ++ "29"` in numeric order, and the memoization cache is not
observable: a second call returns the same value, equal to the uncached
function. -/
theorem get_raster_bands_spec (band : String) :
    (get_raster_bands band).length = 30 ∧
    (∀ i : Fin 30, (get_raster_bands band)[(i : Nat)]? = some (band ++ toString (i : Nat))) ∧
    get_raster_bands "cover_z" =
      ["cover_z0", "cover_z1", "cover_z2", "cover_z3", "cover_z4", "cover_z5",
       "cover_z6", "cover_z7", "cover_z8", "cover_z9", "cover_z10", "cover_z11",
       "cover_z12", "cover_z13", "cover_z14", "cover_z15", "cover_z16",
       "cover_z17", "cover_z18", "cover_z19", "cover_z20", "cover_z21",
       "cover_z22", "cover_z23", "cover_z24", "cover_z25", "cover_z26",
       "cover_z27", "cover_z28", "cover_z29"] ∧
    (get_raster_bands_cached ((get_raster_bands_cached [] band).2) band).1 =
      (get_raster_bands_cached [] band).1 ∧
    (get_raster_bands_cached [] band).1 = get_raster_bands band := by
  refine ⟨by simp [get_raster_bands], fun i => ?_, by rfl, ?_, ?_⟩
  · simp [get_raster_bands, List.getElem?_map, List.getElem?_range, i.isLt]
  · simp [get_raster_bands_cached, List.lookup]
  · simp [get_raster_bands_cached]

/-- C10: the resolved raster band list is a fixed constant of 109 pairwise
distinct names in the documented order, and includes `delta_time` and
`sensitivity` as output bands. -/
theorem raster_bands_spec :
    raster_bands.length = 109 ∧
    raster_bands.Nodup ∧
    "delta_time" ∈ raster_bands ∧
    "sensitivity" ∈ raster_bands ∧
    raster_bands =
      ["algorithmrun_flag", "beam", "cover", "cover_z0", "cover_z1", "cover_z2",
       "cover_z3", "cover_z4", "cover_z5", "cover_z6", "cover_z7", "cover_z8",
       "cover_z9", "cover_z10", "cover_z11", "cover_z12", "cover_z13", "cover_z14",
       "cover_z15", "cover_z16", "cover_z17", "cover_z18", "cover_z19",
       "cover_z20", "cover_z21", "cover_z22", "cover_z23", "cover_z24",
       "cover_z25", "cover_z26", "cover_z27", "cover_z28", "cover_z29",
       "degrade_flag", "delta_time", "fhd_normal", "l2b_quality_flag",
       "local_beam_azimuth", "local_beam_elevation", "pai", "pai_z0", "pai_z1",
       "pai_z2", "pai_z3", "pai_z4", "pai_z5", "pai_z6", "pai_z7", "pai_z8",
       "pai_z9", "pai_z10", "pai_z11", "pai_z12", "pai_z13", "pai_z14", "pai_z15",
       "pai_z16", "pai_z17", "pai_z18", "pai_z19", "pai_z20", "pai_z21", "pai_z22",
       "pai_z23", "pai_z24", "pai_z25", "pai_z26", "pai_z27", "pai_z28", "pai_z29",
       "pavd_z0", "pavd_z1", "pavd_z2", "pavd_z3", "pavd_z4", "pavd_z5", "pavd_z6",
       "pavd_z7", "pavd_z8", "pavd_z9", "pavd_z10", "pavd_z11", "pavd_z12",
       "pavd_z13", "pavd_z14", "pavd_z15", "pavd_z16", "pavd_z17", "pavd_z18",
       "pavd_z19", "pavd_z20", "pavd_z21", "pavd_z22", "pavd_z23", "pavd_z24",
       "pavd_z25", "pavd_z26", "pavd_z27", "pavd_z28", "pavd_z29", "pgap_theta",
       "selected_l2a_algorithm", "selected_rg_algorithm", "sensitivity",
       "solar_azimuth", "solar_elevation", "minor_frame_number", "orbit_number",
       "shot_number_within_beam"] :=
  ⟨by decide, by decide, by decide, by decide, by rfl⟩

/-- Every calendar month has at least one day. -/
theorem one_le_daysInMonth (y m : Nat) : 1 ≤ daysInMonth y m := by
  unfold daysInMonth
  split_ifs <;> omega

/-- C2 (counterexample): the month-window start is `grill_month.replace(day=1)`,
which keeps the input's time of day, so for an input at 12:30 the window start
is not at 00:00 as claimed. -/
theorem month_window_counterexample :
    ¬ (monthStart ⟨2021, 6, 15, 12, 30, 0⟩).hour = 0 := by decide

/-- C2 (amended): for a valid input month the window start has day 1 and the
input's own time of day (00:00 only when the input is at midnight); the end is
the start plus exactly one calendar month, rolling December into January of
the next year; and the window is never empty. -/
theorem month_window_corrected (g : Dt) (hmlo : 1 ≤ g.month) (hmhi : g.month ≤ 12) :
    (monthStart g).day = 1 ∧
    (monthStart g).year = g.year ∧
    (monthStart g).month = g.month ∧
    (monthStart g).hour = g.hour ∧
    (monthStart g).minute = g.minute ∧
    (monthStart g).second = g.second ∧
    (monthEnd g).day = 1 ∧
    (monthEnd g).hour = g.hour ∧
    (monthEnd g).minute = g.minute ∧
    (monthEnd g).second = g.second ∧
    (g.month = 12 → (monthEnd g).year = g.year + 1 ∧ (monthEnd g).month = 1) ∧
    (g.month ≠ 12 → (monthEnd g).year = g.year ∧ (monthEnd g).month = g.month + 1) ∧
    dtLt (monthStart g) (monthEnd g) = true := by
  by_cases hm : g.month = 12
  · have hd : min 1 (daysInMonth (g.year + 1) 1) = 1 :=
      Nat.min_eq_left (one_le_daysInMonth _ _)
    simp [monthStart, monthEnd, addOneMonth, hm, hd, dtLt]
  · have hd : min 1 (daysInMonth g.year (g.month + 1)) = 1 :=
      Nat.min_eq_left (one_le_daysInMonth _ _)
    simp [monthStart, monthEnd, addOneMonth, hm, hd, dtLt]

/-- C2 (witness): the amended statement holds at the concrete December input
2020-12-15 03:04:05, with the year rolling into 2021. -/
theorem month_window_corrected_witness :
    (monthStart ⟨2020, 12, 15, 3, 4, 5⟩).day = 1 ∧
    (monthStart ⟨2020, 12, 15, 3, 4, 5⟩).hour = 3 ∧
    (monthStart ⟨2020, 12, 15, 3, 4, 5⟩).minute = 4 ∧
    (monthStart ⟨2020, 12, 15, 3, 4, 5⟩).second = 5 ∧
    (monthEnd ⟨2020, 12, 15, 3, 4, 5⟩).day = 1 ∧
    (monthEnd ⟨2020, 12, 15, 3, 4, 5⟩).year = 2021 ∧
    (monthEnd ⟨2020, 12, 15, 3, 4, 5⟩).month = 1 ∧
    dtLt (monthStart ⟨2020, 12, 15, 3, 4, 5⟩) (monthEnd ⟨2020, 12, 15, 3, 4, 5⟩) = true := by
  have h := month_window_corrected ⟨2020, 12, 15, 3, 4, 5⟩ (by decide) (by decide)
  have hr := h.2.2.2.2.2.2.2.2.2.2.1 rfl
  exact ⟨h.1, h.2.2.2.1, h.2.2.2.2.1, h.2.2.2.2.2.1, h.2.2.2.2.2.2.1,
    hr.1, hr.2, h.2.2.2.2.2.2.2.2.2.2.2.2⟩

/-- C3: the record filter keeps exactly the records inside the buffered
bounding box whose `delta_time` lies in the half-open interval from
`gedi_deltatime_epoch(month_start)` (inclusive) to
`gedi_deltatime_epoch(month_end)` (exclusive); so a record outside the box is
dropped regardless of its time, and a record inside the box whose time is on
or past the end epoch is dropped. -/
theorem filter_shots_halfopen (g : Dt) (box : Box) (l : List Record) (r : Record) :
    r ∈ filterShots box (gedi_deltatime_epoch (monthStart g))
        (gedi_deltatime_epoch (monthEnd g)) l ↔
      r ∈ l ∧ inBox r box = true ∧
        (gedi_deltatime_epoch (monthStart g) : ℚ) ≤ r.delta_time ∧
        r.delta_time < (gedi_deltatime_epoch (monthEnd g) : ℚ) := by
  simp only [filterShots, List.mem_filter, Bool.and_eq_true, decide_eq_true_eq, and_assoc]

/-- In a list sorted by descending sensitivity in which `r1` and `r2` are the
only records at pixel `p` and `r1` is strictly more sensitive, the first
record found at `p` is `r1`. -/
theorem find_first_at_pixel (p : Int × Int) (r1 r2 : Record)
    (hs : r2.sensitivity < r1.sensitivity)
    (hp1 : pixelOf r1 = p) :
    ∀ m : List Record, List.Sorted sensGE m → r1 ∈ m →
      (∀ r ∈ m, pixelOf r = p → r = r1 ∨ r = r2) →
      m.find? (fun r => decide (pixelOf r = p)) = some r1 := by
  intro m
  induction m with
  | nil => intro _ h1 _; cases h1
  | cons x xs ih =>
    intro hsort h1 honly
    rw [List.sorted_cons] at hsort
    by_cases hx : pixelOf x = p
    · rw [List.find?_cons_of_pos _ (by simpa using hx)]
      rcases honly x (List.mem_cons_self x xs) hx with h | h
      · rw [h]
      · subst h
        rcases List.mem_cons.mp h1 with h1a | h1b
        · rw [h1a] at hs
          exact absurd hs (lt_irrefl _)
        · have hle := hsort.1 r1 h1b
          exact absurd hs (not_lt.mpr hle)
    · rw [List.find?_cons_of_neg _ (by simpa using hx)]
      have h1x : r1 ∈ xs := by
        rcases List.mem_cons.mp h1 with h | h
        · rw [h] at hp1
          exact absurd hp1 hx
        · exact h
      exact ih hsort.2 h1x (fun r hr hpr => honly r (List.mem_cons_of_mem _ hr) hpr)

/-- C4: after the descending-sensitivity sort, the first-wins per-pixel
reduction assembles, for a pixel carrying two records of unequal sensitivity
(and no others), the record with the higher sensitivity — and with it that
record's band values.  The embedding is a pure function of the input list, so
the result on exactly equal sensitivities is deterministic given identical
input ordering. -/
theorem assemble_first_wins (l : List Record) (p : Int × Int) (r1 r2 : Record)
    (h1 : r1 ∈ l) (h2 : r2 ∈ l) (hp1 : pixelOf r1 = p) (hp2 : pixelOf r2 = p)
    (hs : r2.sensitivity < r1.sensitivity)
    (honly : ∀ r ∈ l, pixelOf r = p → r = r1 ∨ r = r2) :
    assembleAt l p = some r1 := by
  have hperm := List.perm_insertionSort sensGE l
  have hsorted := List.sorted_insertionSort sensGE l
  unfold assembleAt sortDesc
  exact find_first_at_pixel p r1 r2 hs hp1 _ hsorted
    (hperm.mem_iff.mpr h1)
    (fun r hr hpr => honly r (hperm.mem_iff.mp hr) hpr)

/-- C4 (witness): of two concrete records at pixel (0, 0) with sensitivities
9/10 and 7/10, listed lower-sensitivity first, the assembled pixel carries the
9/10 record and its band values. -/
theorem assemble_first_wins_witness :
    assembleAt [⟨1, 1, 0, 7/10, [("pai", 2)]⟩, ⟨2, 2, 0, 9/10, [("pai", 3)]⟩] (0, 0) =
      some ⟨2, 2, 0, 9/10, [("pai", 3)]⟩ :=
  assemble_first_wins _ (0, 0) ⟨2, 2, 0, 9/10, [("pai", 3)]⟩ ⟨1, 1, 0, 7/10, [("pai", 2)]⟩
    (by simp) (by simp) (by norm_num [pixelOf]) (by norm_num [pixelOf]) (by norm_num)
    (by
      intro r hr _
      rcases (by simpa using hr : _ ∨ _) with h | h
      · exact Or.inr h
      · exact Or.inl h)

/-- Successful parsing yields one timestamp per asset id. -/
theorem parseAll_ok_length : ∀ (ids : List String) (dts : List Dt),
    parseAll ids = Except.ok dts → dts.length = ids.length := by
  intro ids
  induction ids with
  | nil =>
    intro dts h
    simp only [parseAll] at h
    cases h
    rfl
  | cons a as ih =>
    intro dts h
    simp only [parseAll] at h
    cases hp : parse_date_from_gedi_filename a with
    | error e => rw [hp] at h; cases h
    | ok d =>
      rw [hp] at h
      cases hr : parseAll as with
      | error e => rw [hr] at h; cases h
      | ok ds =>
        rw [hr] at h
        cases h
        simp [ih ds hr]

/-- C1: for a non-empty list of asset ids whose timestamps all parse, the
export construction performs the two month-window checks in order: if every
timestamp is strictly outside `[month_start, month_end)` it fails with the
all-outside error; otherwise if the in-window fraction is strictly below 0.95
(that is, `20 * inside < 19 * total`) it fails with the insufficient-coverage
error; and if the fraction is at least 0.95 it succeeds past both checks. -/
theorem create_export_month_checks (ids : List String) (aid : String) (f : Feature)
    (g : Dt) (rec : String → List Record) (ow : Bool) (dts : List Dt)
    (hne : ids ≠ []) (hparse : parseAll ids = .ok dts) :
    (dts.all (fun d => dtLt d (monthStart g) || !dtLt d (monthEnd g)) = true →
      create_export ids aid f g rec ow = .error .allOutsideMonth) ∧
    (dts.all (fun d => dtLt d (monthStart g) || !dtLt d (monthEnd g)) = false →
      (dts.filter (fun d => !dtLt d (monthStart g) && dtLt d (monthEnd g))).length * 20 <
        dts.length * 19 →
      create_export ids aid f g rec ow = .error .insufficientCoverage) ∧
    (dts.length * 19 ≤
      (dts.filter (fun d => !dtLt d (monthStart g) && dtLt d (monthEnd g))).length * 20 →
      ∃ ep, create_export ids aid f g rec ow = .ok ep) := by
  have hne' : ids.isEmpty = false := by
    cases ids with
    | nil => exact absurd rfl hne
    | cons a as => rfl
  refine ⟨?_, ?_, ?_⟩
  · intro hall
    simp only [create_export, hne', Bool.false_eq_true, if_false]
    rw [hparse]
    simp only [hall, if_true]
  · intro hall hcov
    simp only [create_export, hne', Bool.false_eq_true, if_false]
    rw [hparse]
    simp only [hall, Bool.false_eq_true, if_false]
    rw [if_pos hcov]
  · intro hno
    have hlen := parseAll_ok_length ids dts hparse
    have hids : 1 ≤ ids.length := by
      cases ids with
      | nil => exact absurd rfl hne
      | cons a as => simp
    have hdts : 1 ≤ dts.length := by omega
    have hrt : 1 ≤ (dts.filter
        (fun d => !dtLt d (monthStart g) && dtLt d (monthEnd g))).length := by
      omega
    obtain ⟨d, hd⟩ := List.exists_mem_of_ne_nil _ (List.length_pos.mp hrt)
    have hd' := List.mem_filter.mp hd
    have hallf : dts.all
        (fun d => dtLt d (monthStart g) || !dtLt d (monthEnd g)) = false := by
      cases hab : dts.all (fun d => dtLt d (monthStart g) || !dtLt d (monthEnd g)) with
      | false => rfl
      | true =>
        have hpd := List.all_eq_true.mp hab d hd'.1
        have h2 := hd'.2
        simp only [Bool.and_eq_true, Bool.not_eq_true'] at h2
        rw [h2.1, h2.2] at hpd
        simp at hpd
    simp only [create_export, hne', Bool.false_eq_true, if_false]
    rw [hparse]
    simp only [hallf, Bool.false_eq_true, if_false]
    rw [if_neg (not_lt.mpr hno)]
    exact ⟨_, rfl⟩

/-- C1 (witness): with 20 parseable asset ids of which exactly 19 (95%) carry
June 2020 timestamps and one is outside the window, the construction succeeds
past both month checks. -/
theorem create_export_month_checks_witness :
    ∃ ep, create_export
      ["a_b_2020153000000", "a_b_2020154000000", "a_b_2020155000000",
       "a_b_2020156000000", "a_b_2020157000000", "a_b_2020158000000",
       "a_b_2020159000000", "a_b_2020160000000", "a_b_2020161000000",
       "a_b_2020162000000", "a_b_2020163000000", "a_b_2020164000000",
       "a_b_2020165000000", "a_b_2020166000000", "a_b_2020167000000",
       "a_b_2020168000000", "a_b_2020169000000", "a_b_2020170000000",
       "a_b_2020171000000", "a_b_2020001000000"]
      "LARSE/GEDI/GEDI02_B_002_MONTHLY/001"
      ⟨⟨0, 0, 1000, 1000⟩, "EPSG:32610"⟩ ⟨2020, 6, 1, 0, 0, 0⟩
      (fun _ => []) false = .ok ep :=
  (create_export_month_checks _ _ _ _ _ _
    [⟨2020, 6, 1, 0, 0, 0⟩, ⟨2020, 6, 2, 0, 0, 0⟩, ⟨2020, 6, 3, 0, 0, 0⟩,
     ⟨2020, 6, 4, 0, 0, 0⟩, ⟨2020, 6, 5, 0, 0, 0⟩, ⟨2020, 6, 6, 0, 0, 0⟩,
     ⟨2020, 6, 7, 0, 0, 0⟩, ⟨2020, 6, 8, 0, 0, 0⟩, ⟨2020, 6, 9, 0, 0, 0⟩,
     ⟨2020, 6, 10, 0, 0, 0⟩, ⟨2020, 6, 11, 0, 0, 0⟩, ⟨2020, 6, 12, 0, 0, 0⟩,
     ⟨2020, 6, 13, 0, 0, 0⟩, ⟨2020, 6, 14, 0, 0, 0⟩, ⟨2020, 6, 15, 0, 0, 0⟩,
     ⟨2020, 6, 16, 0, 0, 0⟩, ⟨2020, 6, 17, 0, 0, 0⟩, ⟨2020, 6, 18, 0, 0, 0⟩,
     ⟨2020, 6, 19, 0, 0, 0⟩, ⟨2020, 1, 1, 0, 0, 0⟩]
    (by decide) (by rfl)).2.2 (by decide)
